import Mathlib

/-!
Shallow embedding of the player-state synchronization layer of the
choreo-remix repository: the Spotify player module (device connection
manager, playback state synchronizer, tick synthesizer and unified
player facade), together with theorems settling the specification
claims about it.

The current module (jotai-based, `src/unnamed/part_000`) is embedded
for the facade operations (`seekTo`, `tick`, `addOnTick`,
`removeOnTick`), the effect of `useSpotifyPlayer` (token/promise
caching, listener registration, teardown) and the derived atoms.  The
tick-interval timer logic lives in `mainCallback` of
`src/unnamed/part_001` and is embedded from there.
-/

namespace ChoreoRemix

/-- A playback state snapshot as reported by the SDK
(`Spotify.PlaybackState`): paused flag, position in ms, and current
track metadata. -/
structure PlaybackState where
  paused : Bool
  position : Int
  trackName : String
  artists : List String
deriving Repr, DecidableEq

/-- The `SpotifyPlayerStatus` enum of `part_000` (identical to
`PlayerStatus` of `part_001`). -/
inductive SpotifyPlayerStatus where
  | LOADING
  | NOT_CONNECTED
  | INIT_ERROR
  | AUTH_ERROR
  | ACCT_ERROR
  | PLAYBACK_ERROR
  | READY
deriving Repr, DecidableEq

/-- The `playerEvents` array: the six device events registered and
(putatively) unregistered by `useSpotifyPlayer`. -/
def playerEvents : List String :=
  ["player_state_changed", "playback_error", "initialization_error",
   "authentication_error", "account_error", "ready"]

/-- The derived `spotifyPausedAtom`: `state ? state.paused : true`
(`part_000` lines 43-46). -/
def spotifyPausedAtom (playbackState : Option PlaybackState) : Bool :=
  match playbackState with
  | some state => state.paused
  | none => true

/-- The jotai atoms written by `useSpotifyPlayer`: the playback state
atom, the status atom and the player atom (holding the device handle,
modelled by an identifier). -/
structure AtomState where
  playbackState : Option PlaybackState
  status : SpotifyPlayerStatus
  player : Option Nat
deriving Repr, DecidableEq

/-- The `onPlayerStateChanged` callback of `useSpotifyPlayer`
(`part_000` lines 98-104): stores the raw state, publishes the window
player when the state is non-null, and maps the state to a status. -/
def onPlayerStateChanged (windowPlayer : Option Nat) (atoms : AtomState)
    (state : Option PlaybackState) : AtomState :=
  let atoms1 := { atoms with playbackState := state }
  let atoms2 :=
    if state.isSome then { atoms1 with player := windowPlayer } else atoms1
  { atoms2 with
      status :=
        if state.isSome then SpotifyPlayerStatus.READY
        else SpotifyPlayerStatus.NOT_CONNECTED }

/-- The listener registered for the device "ready" event
(`part_000` lines 130-132): it publishes `NOT_CONNECTED`. -/
def onReadyEvent (atoms : AtomState) : AtomState :=
  { atoms with status := SpotifyPlayerStatus.NOT_CONNECTED }

/-- The `tick` closure of `wrapSpotifyPlayer` (`part_000` lines
175-179).  Tick callbacks are modelled by identifiers (`Nat`).  When
`ms` is given, that value is delivered; otherwise the device is
queried and the queried position (when a state exists) is delivered.
Returns whether the device was queried, and the list of
(callback, position) deliveries. -/
def tick (onTickCallbacks : List Nat) (deviceState : Option PlaybackState)
    (ms : Option Int) : Bool × List (Nat × Int) :=
  let timeMs : Option Int :=
    match ms with
    | some m => some m
    | none => deviceState.map (fun s => s.position)
  (ms.isNone,
   match timeMs with
   | some t => onTickCallbacks.map (fun cb => (cb, t))
   | none => [])

/-- Result of one `seekTo` call: the position handed to the device's
`seek`, whether the follow-up tick re-queried the device, and the tick
deliveries made. -/
structure SeekResult where
  seekCalledWith : Int
  queriedDevice : Bool
  emitted : List (Nat × Int)
deriving Repr, DecidableEq

/-- `seekTo` of the facade (`part_000` lines 195-198): clamp negative
input to zero, seek the device to the clamped position, then tick with
the intended position. -/
def seekTo (onTickCallbacks : List Nat) (deviceState : Option PlaybackState)
    (timeMs : Int) : SeekResult :=
  let posTimeMs := if timeMs < 0 then 0 else timeMs
  let r := tick onTickCallbacks deviceState (some posTimeMs)
  { seekCalledWith := posTimeMs, queriedDevice := r.1, emitted := r.2 }

/-- `addOnTick` of the facade (`part_000` lines 205-208): query the
current state and deliver one immediate tick to the new callback when
a state exists, and push the callback onto the registry.  Returns the
new registry and the immediate delivery, if any. -/
def addOnTick (onTickCallbacks : List Nat) (deviceState : Option PlaybackState)
    (cb : Nat) : List Nat × Option (Nat × Int) :=
  (onTickCallbacks ++ [cb], deviceState.map (fun s => (cb, s.position)))

/-- JavaScript `Array.prototype.findIndex`: index of the first element
satisfying the predicate, `-1` when there is none. -/
def findIndex (p : Nat → Bool) : List Nat → Int
  | [] => -1
  | x :: rest =>
    if p x then 0
    else
      let r := findIndex p rest
      if r = -1 then -1 else r + 1

/-- `removeOnTick` of the facade (`part_000` lines 209-213): bail out
on an empty registry, find the callback by identity, and splice it out
when found. -/
def removeOnTick (onTickCallbacks : List Nat) (callback : Nat) : List Nat :=
  if onTickCallbacks.length = 0 then onTickCallbacks
  else
    let index := findIndex (fun cb => cb == callback) onTickCallbacks
    if index > -1 then onTickCallbacks.eraseIdx index.toNat
    else onTickCallbacks

/-- A constructed device handle, carrying the credential it was built
with (`authToken`) and an identifier for the underlying object. -/
structure PlayerHandle where
  authToken : String
  deviceId : Nat
deriving Repr, DecidableEq

/-- The value a cached player promise resolves to: either the existing
window player (via `Promise.resolve(window.spotifyPlayer)`) or a newly
constructed device object (via `getSpotifyPlayer` /
`wrapSpotifyPlayer(getFakePlayer(), token)`). -/
inductive PromiseVal where
  | resolvedWindow (p : PlayerHandle)
  | newDevice (token : String) (id : Nat)
deriving Repr, DecidableEq

/-- The module-global `tokenAndPromise` cache of `useSpotifyPlayer`. -/
structure TokenAndPromise where
  token : String
  promise : Option PromiseVal
deriving Repr, DecidableEq

/-- Externally visible actions of one run of the `useSpotifyPlayer`
effect body, in program order: disconnecting the old window player
(`window.spotifyPlayer?.disconnect()`) and constructing a new device
object. -/
inductive ObtainAction where
  | disconnectOld
  | constructDevice
deriving Repr, DecidableEq

/-- Result of one run of the `useSpotifyPlayer` effect body's
token/promise logic (`part_000` lines 77-96): the actions performed in
order, the new `tokenAndPromise` cache, and the promise whose `then`
continuation will run. -/
structure ObtainResult where
  actions : List ObtainAction
  cache : Option TokenAndPromise
  promiseUsed : Option PromiseVal
deriving Repr, DecidableEq

/-- The else-if branch of the effect (`part_000` lines 84-96): when the
cache is missing, holds a different token, or has no promise, disconnect
any window player and construct a new device; otherwise reuse the
cached promise. -/
def obtainViaCache (windowPlayer : Option PlayerHandle)
    (tokenAndPromise : Option TokenAndPromise) (tok : String)
    (freshId : Nat) : ObtainResult :=
  let needNew :=
    match tokenAndPromise with
    | none => true
    | some tp => !(tok == tp.token) || tp.promise.isNone
  if needNew then
    let dis : List ObtainAction :=
      if windowPlayer.isSome then [ObtainAction.disconnectOld] else []
    { actions := dis ++ [ObtainAction.constructDevice],
      cache := some ⟨tok, some (PromiseVal.newDevice tok freshId)⟩,
      promiseUsed := some (PromiseVal.newDevice tok freshId) }
  else
    { actions := [],
      cache := tokenAndPromise,
      promiseUsed := tokenAndPromise.bind (fun tp => tp.promise) }

/-- The token/promise logic of the `useSpotifyPlayer` effect body
(`part_000` lines 77-96): return early on a null token; reuse the
window player when its token matches; otherwise fall through to the
cache check. -/
def useSpotifyPlayerEffect (windowPlayer : Option PlayerHandle)
    (tokenAndPromise : Option TokenAndPromise) (token : Option String)
    (freshId : Nat) : ObtainResult :=
  match token with
  | none => { actions := [], cache := tokenAndPromise, promiseUsed := none }
  | some tok =>
    match windowPlayer with
    | some wp =>
      if wp.authToken == tok then
        { actions := [],
          cache := some ⟨tok, some (PromiseVal.resolvedWindow wp)⟩,
          promiseUsed := some (PromiseVal.resolvedWindow wp) }
      else obtainViaCache (some wp) tokenAndPromise tok freshId
    | none => obtainViaCache none tokenAndPromise tok freshId

/-- Connection bookkeeping for the old window handle and the newly
constructed handle: `(oldConnected, newConnected)`.  Disconnecting the
old handle clears the first flag; constructing the new device does not
by itself connect it (its `connect()` resolves later). -/
def applyObtainAction : Bool × Bool → ObtainAction → Bool × Bool
  | (_, n), ObtainAction.disconnectOld => (false, n)
  | (o, n), ObtainAction.constructDevice => (o, n)

/-- The later `connect()` resolution of the newly constructed handle. -/
def connectNew : Bool × Bool → Bool × Bool
  | (o, _) => (o, true)

/-- Outcome of the `then` continuation of the cached promise
(`part_000` lines 106-133), as a function of the boolean result of
`wp.connect()`: the status written (if any), the device events the
continuation registers listeners for, whether `window.spotifyPlayer`
was assigned, the resulting `tokenAndPromise` cache, and whether an
exception escaped to the caller. -/
structure ConnectOutcome where
  statusWritten : Option SpotifyPlayerStatus
  listenersRegistered : List String
  windowPlayerSet : Bool
  cacheAfter : Option TokenAndPromise
  threw : Bool
deriving Repr, DecidableEq

/-- The `then` continuation of `tokenAndPromise.promise`
(`part_000` lines 106-133): on `connect()` returning false, write
`INIT_ERROR` and return; on success, assign the window player and
register the six listeners.  The continuation never touches
`tokenAndPromise`. -/
def afterConnect (cache : Option TokenAndPromise) (connectResult : Bool) :
    ConnectOutcome :=
  if !connectResult then
    { statusWritten := some SpotifyPlayerStatus.INIT_ERROR,
      listenersRegistered := [],
      windowPlayerSet := false,
      cacheAfter := cache,
      threw := false }
  else
    { statusWritten := none,
      listenersRegistered := playerEvents,
      windowPlayerSet := true,
      cacheAfter := cache,
      threw := false }

/-- `removeListener(event)` on the device handle: drops every listener
registered for that event name.  The registry is a list of
(event name, callback identifier) pairs. -/
def removeListener (listeners : List (String × Nat)) (event : String) :
    List (String × Nat) :=
  listeners.filter (fun p => !(p.1 == event))

/-- The keys a JavaScript `for (... in array)` loop iterates over: the
array's index strings "0", "1", ..., not its elements. -/
def forInKeys (l : List String) : List String :=
  (List.range l.length).map (fun i => toString i)

/-- The effect cleanup of `useSpotifyPlayer` (`part_000` lines
135-138): `for (const event in playerEvents)
window.spotifyPlayer?.removeListener(event as PlayerEvent)` —
a `for...in` loop, so `removeListener` is called with the index
strings of `playerEvents`. -/
def effectCleanup (listeners : List (String × Nat)) : List (String × Nat) :=
  (forInKeys playerEvents).foldl removeListener listeners

/-- The six listeners registered on a handle after a successful
connect (`part_000` lines 116-132), with callback identifiers. -/
def registeredSix : List (String × Nat) :=
  [("player_state_changed", 0), ("playback_error", 1),
   ("initialization_error", 2), ("authentication_error", 3),
   ("account_error", 4), ("ready", 5)]

/-- The intended teardown per the spec: `removeListener` called with
each of the six event names themselves (a `for...of` loop). -/
def intendedCleanup (listeners : List (String × Nat)) : List (String × Nat) :=
  playerEvents.foldl removeListener listeners

/-- A DOM script element: optional id and source URL. -/
structure ScriptElement where
  elemId : Option String
  src : String
deriving Repr, DecidableEq

/-- The fixed DOM identifier keying the SDK bootstrap script. -/
def SPOTIFY_SCRIPT_ID : String := "spotify-sdk-script"

/-- `document.getElementById`: first element with the given id. -/
def getElementById (document : List ScriptElement) (i : String) :
    Option ScriptElement :=
  document.find? (fun e => e.elemId == some i)

/-- The script-injection step of `getSpotifyPlayer` (`part_000` lines
144-150): if no element with `SPOTIFY_SCRIPT_ID` exists, create the
script element with that id and append it to the document body. -/
def injectSpotifyScript (document : List ScriptElement) :
    List ScriptElement :=
  if (getElementById document SPOTIFY_SCRIPT_ID).isSome then document
  else
    document ++
      [{ elemId := some SPOTIFY_SCRIPT_ID,
         src := "https://sdk.scdn.co/spotify-player.js" }]

/-- Number of script elements carrying the fixed SDK identifier. -/
def scriptCount (document : List ScriptElement) : Nat :=
  document.countP (fun e => e.elemId == some SPOTIFY_SCRIPT_ID)

/-- State of the module-global tick-interval machinery of `part_001`:
the `tickIntervalId` variable, the set of interval timers currently
running in the process, and a fresh-id counter for `setInterval`. -/
structure TimerState where
  tickIntervalId : Option Nat
  activeTimers : List Nat
  nextId : Nat
deriving Repr, DecidableEq

/-- `window.setInterval(tick, 100)` followed by the assignment to
`tickIntervalId` (`part_001` line 191). -/
def setIntervalOp (s : TimerState) : TimerState :=
  { tickIntervalId := some s.nextId,
    activeTimers := s.activeTimers ++ [s.nextId],
    nextId := s.nextId + 1 }

/-- `window.clearInterval(tickIntervalId); tickIntervalId = undefined`
(`part_001` lines 194-195). -/
def clearIntervalOp (s : TimerState) (i : Nat) : TimerState :=
  { s with
      tickIntervalId := none,
      activeTimers := s.activeTimers.filter (fun j => !(j == i)) }

/-- The `mainCallback` state-change listener of `createWrappedPlayer`
(`part_001` lines 187-198), restricted to its timer effects: return on
a null state; start the interval on an unpaused state when none is
running; clear it on a paused state when one is running. -/
def mainCallback (s : TimerState) (state : Option PlaybackState) :
    TimerState :=
  match state with
  | none => s
  | some st =>
    if !st.paused then
      match s.tickIntervalId with
      | none => setIntervalOp s
      | some _ => s
    else
      match s.tickIntervalId with
      | some i => clearIntervalOp s i
      | none => s

/-- Events that reach the tick-timer machinery: a device state-change
(possibly null) and a device disconnect. -/
inductive PlayerTimerEvent where
  | stateChanged (state : Option PlaybackState)
  | disconnect
deriving Repr, DecidableEq

/-- Effect of one event on the timer state.  No code path of the
module reacts to `disconnect` by touching `tickIntervalId`: the only
writes to it are inside `mainCallback`. -/
def applyPlayerEvent (s : TimerState) : PlayerTimerEvent → TimerState
  | PlayerTimerEvent.stateChanged st => mainCallback s st
  | PlayerTimerEvent.disconnect => s

/-- Timer state at process start: no interval running. -/
def timerStart : TimerState :=
  { tickIntervalId := none, activeTimers := [], nextId := 0 }

/-- Timer state after a sequence of device events. -/
def runTimerEvents (events : List PlayerTimerEvent) : TimerState :=
  events.foldl applyPlayerEvent timerStart

/-- The timer-activity predicate as the claim states it: the timer is
active iff the most recent transition (state-change with a non-null
payload, or disconnect) was a transition to unpaused and no disconnect
has occurred since. -/
def claimTimerActive (events : List PlayerTimerEvent) : Bool :=
  match events.reverse.find?
      (fun e =>
        match e with
        | PlayerTimerEvent.stateChanged (some _) => true
        | PlayerTimerEvent.stateChanged none => false
        | PlayerTimerEvent.disconnect => true) with
  | some (PlayerTimerEvent.stateChanged (some st)) => !st.paused
  | _ => false

/-- The timer-activity predicate the code realizes: active iff the
most recent state-change with a non-null payload reported unpaused
(null payloads and disconnects leave the timer as it was). -/
def codeTimerActive (b : Bool) : List PlayerTimerEvent → Bool
  | [] => b
  | e :: rest =>
    codeTimerActive
      (match e with
       | PlayerTimerEvent.stateChanged (some st) => !st.paused
       | PlayerTimerEvent.stateChanged none => b
       | PlayerTimerEvent.disconnect => b) rest

/-- C10: whenever the stored playback state is null, the derived
paused flag exposed by `spotifyPausedAtom` is true — a player with no
known state is reported as paused, never as playing. -/
theorem spotifyPausedAtom_null_reports_paused :
    spotifyPausedAtom none = true := rfl

/-- C5: after a successful connect, a state-changed event with a
non-null payload sets the published status to READY and publishes a
snapshot built from that payload; a null payload sets the status to
NOT_CONNECTED and publishes no snapshot; and the "ready" event sets
the status to NOT_CONNECTED. -/
theorem onPlayerStateChanged_status_snapshot (wp : Option Nat)
    (atoms : AtomState) (s : PlaybackState) :
    (onPlayerStateChanged wp atoms (some s)).status =
      SpotifyPlayerStatus.READY ∧
    (onPlayerStateChanged wp atoms (some s)).playbackState = some s ∧
    (onPlayerStateChanged wp atoms none).status =
      SpotifyPlayerStatus.NOT_CONNECTED ∧
    (onPlayerStateChanged wp atoms none).playbackState = none ∧
    (onReadyEvent atoms).status = SpotifyPlayerStatus.NOT_CONNECTED := by
  refine ⟨?_, ?_, ?_, ?_, ?_⟩ <;> simp [onPlayerStateChanged, onReadyEvent]

/-- C8: `addOnTick` appends the callback to the tick registry and,
when a current device state is available, immediately delivers one
tick to the new callback carrying the current position. -/
theorem addOnTick_registers_and_ticks_immediately (l : List Nat)
    (st : Option PlaybackState) (cb : Nat) (s : PlaybackState) :
    (addOnTick l st cb).1 = l ++ [cb] ∧
    cb ∈ (addOnTick l st cb).1 ∧
    (addOnTick l (some s) cb).2 = some (cb, s.position) ∧
    (addOnTick l none cb).2 = none := by
  refine ⟨rfl, ?_, rfl, rfl⟩
  simp [addOnTick]

/-- A JavaScript `findIndex` over a list containing no match yields
`-1`. -/
theorem findIndex_eq_neg_one_of_not_mem (cb : Nat) :
    ∀ l : List Nat, cb ∉ l → findIndex (fun x => x == cb) l = -1 := by
  intro l
  induction l with
  | nil => intro _; rfl
  | cons x rest ih =>
    intro h
    have hx : ¬(x == cb) = true := by
      simp only [beq_iff_eq]
      intro hxe
      exact h (hxe ▸ List.mem_cons_self x rest)
    have hrest : cb ∉ rest := fun hm => h (List.mem_cons_of_mem x hm)
    simp only [findIndex, hx, if_false, ih hrest]
    rfl

/-- C7: calling `removeOnTick` with a callback that is not registered
leaves the registry unchanged (and, being a total function, does not
throw), so every other registered callback still receives ticks. -/
theorem removeOnTick_unregistered_is_noop (l : List Nat) (cb : Nat)
    (h : cb ∉ l) : removeOnTick l cb = l := by
  unfold removeOnTick
  by_cases hl : l.length = 0
  · simp [hl]
  · simp only [hl, if_false, findIndex_eq_neg_one_of_not_mem cb l h]
    norm_num

/-- Witness for C7 at a concrete registry. -/
theorem removeOnTick_unregistered_is_noop_witness :
    (9 : Nat) ∉ [5, 7] ∧ removeOnTick [5, 7] 9 = [5, 7] :=
  ⟨by decide, removeOnTick_unregistered_is_noop [5, 7] 9 (by decide)⟩

/-- C3: `seekTo` clamps negative input to zero (`seekTo (-50)` behaves
exactly like `seekTo 0`), hands the clamped position to the device's
seek, and emits exactly one tick per subscriber carrying the intended
clamped destination, without re-querying the device (the result is
independent of the device state). -/
theorem seekTo_clamps_and_emits_intended (cbs : List Nat)
    (st st' : Option PlaybackState) (ms : Int) :
    (ms < 0 → seekTo cbs st ms = seekTo cbs st 0) ∧
    (seekTo cbs st ms).queriedDevice = false ∧
    (seekTo cbs st ms).seekCalledWith = (if ms < 0 then 0 else ms) ∧
    (seekTo cbs st ms).emitted =
      cbs.map (fun cb => (cb, if ms < 0 then 0 else ms)) ∧
    seekTo cbs st ms = seekTo cbs st' ms := by
  refine ⟨?_, ?_, ?_, ?_, ?_⟩
  · intro h
    simp [seekTo, tick, h]
  · simp [seekTo, tick]
  · simp [seekTo, tick]
  · simp [seekTo, tick]
  · rfl

/-- Witness for C3: `seekTo (-50)` equals `seekTo 0`, and delivers the
clamped position `0` to the lone subscriber. -/
theorem seekTo_clamps_and_emits_intended_witness :
    seekTo [1] none (-50) = seekTo [1] none 0 ∧
    (seekTo [1] none (-50)).emitted = [(1, 0)] := by
  have h := seekTo_clamps_and_emits_intended [1] none none (-50)
  exact ⟨h.1 (by decide), by decide⟩

/-- One injection step keeps the count of SDK script elements at one
or below. -/
theorem scriptCount_inject_le (d : List ScriptElement)
    (hd : scriptCount d ≤ 1) : scriptCount (injectSpotifyScript d) ≤ 1 := by
  unfold injectSpotifyScript
  by_cases h : (getElementById d SPOTIFY_SCRIPT_ID).isSome
  · simpa [h] using hd
  · have hnone : getElementById d SPOTIFY_SCRIPT_ID = none :=
      Option.not_isSome_iff_eq_none.mp h
    have hall : ∀ e ∈ d, ¬(e.elemId == some SPOTIFY_SCRIPT_ID) = true := by
      intro e he
      exact List.find?_eq_none.mp hnone e he
    have hzero : scriptCount d = 0 :=
      List.countP_eq_zero.mpr hall
    rw [if_neg h]
    unfold scriptCount at hzero ⊢
    rw [List.countP_append, hzero]
    decide

/-- C9: starting from a document without the script, any number of
`getSpotifyPlayer` construction calls leaves at most one script
element carrying the fixed SDK identifier — the injection is
idempotent, keyed by that identifier. -/
theorem injectSpotifyScript_at_most_once (n : Nat) :
    scriptCount (injectSpotifyScript^[n] []) ≤ 1 := by
  induction n with
  | zero => simp [scriptCount]
  | succ k ih =>
    rw [Function.iterate_succ_apply']
    exact scriptCount_inject_le _ ih

/-- C2 (code bug): the effect cleanup iterates `playerEvents` with
`for...in`, which yields the array's index strings "0".."5" rather
than the six event names, so on teardown not a single one of the six
registered listeners is removed — the registry is unchanged and the
stale `player_state_changed` listener is still present — whereas the
intended per-name removal would have emptied it. -/
theorem effectCleanup_removes_no_listener :
    forInKeys playerEvents = ["0", "1", "2", "3", "4", "5"] ∧
    effectCleanup registeredSix = registeredSix ∧
    ("player_state_changed", 0) ∈ effectCleanup registeredSix ∧
    intendedCleanup registeredSix = [] := by
  refine ⟨by decide, by decide, by decide, by decide⟩

/-- A cache holding the requested token and a promise makes the
else-if branch reuse the cached promise untouched. -/
theorem obtainViaCache_reuse (wp : Option PlayerHandle) (tok : String)
    (pv : PromiseVal) (fresh : Nat) :
    obtainViaCache wp (some ⟨tok, some pv⟩) tok fresh =
      { actions := [], cache := some ⟨tok, some pv⟩,
        promiseUsed := some pv } := by
  simp [obtainViaCache, Option.bind]

/-- Whenever the else-if branch constructs a device, its action list
is exactly an optional disconnect of the window player followed by the
construction. -/
theorem obtainViaCache_construct_shape (wp : Option PlayerHandle)
    (cache : Option TokenAndPromise) (tok : String) (fresh : Nat)
    (h : ObtainAction.constructDevice ∈
      (obtainViaCache wp cache tok fresh).actions) :
    (obtainViaCache wp cache tok fresh).actions =
      (if wp.isSome then [ObtainAction.disconnectOld] else []) ++
        [ObtainAction.constructDevice] := by
  cases cache with
  | none => simp [obtainViaCache]
  | some tp =>
    by_cases hn : (!(tok == tp.token) || tp.promise.isNone) = true
    · simp [obtainViaCache, hn]
    · simp [obtainViaCache, hn] at h

/-- C1: when the cached pair already holds the requested token and a
promise, the effect constructs no new device object, and — absent a
window player shadowing that token — reuses the cached promise and
cache verbatim; whenever a construction does happen, the old window
handle's disconnect precedes it in the action list, so replaying the
actions and the new handle's later connect from a state where only
the old handle may be connected never leaves the old handle connected
alongside the new one. -/
theorem useSpotifyPlayer_single_connection (wp : Option PlayerHandle)
    (cache : Option TokenAndPromise) (tok : String) (pv : PromiseVal)
    (fresh : Nat) :
    (cache = some ⟨tok, some pv⟩ →
      ObtainAction.constructDevice ∉
        (useSpotifyPlayerEffect wp cache (some tok) fresh).actions) ∧
    (cache = some ⟨tok, some pv⟩ →
      (∀ w, wp = some w → ¬w.authToken = tok) →
      useSpotifyPlayerEffect wp cache (some tok) fresh =
        { actions := [], cache := cache, promiseUsed := some pv }) ∧
    (ObtainAction.constructDevice ∈
        (useSpotifyPlayerEffect wp cache (some tok) fresh).actions →
      (useSpotifyPlayerEffect wp cache (some tok) fresh).actions =
        (if wp.isSome then [ObtainAction.disconnectOld] else []) ++
          [ObtainAction.constructDevice]) ∧
    (ObtainAction.constructDevice ∈
        (useSpotifyPlayerEffect wp cache (some tok) fresh).actions →
      (connectNew
        (((useSpotifyPlayerEffect wp cache (some tok) fresh).actions).foldl
          applyObtainAction (wp.isSome, false))).1 = false) := by
  have hshape :
      ObtainAction.constructDevice ∈
          (useSpotifyPlayerEffect wp cache (some tok) fresh).actions →
        (useSpotifyPlayerEffect wp cache (some tok) fresh).actions =
          (if wp.isSome then [ObtainAction.disconnectOld] else []) ++
            [ObtainAction.constructDevice] := by
    intro hmem
    match wp with
    | none =>
      simpa [useSpotifyPlayerEffect] using
        obtainViaCache_construct_shape none cache tok fresh
          (by simpa [useSpotifyPlayerEffect] using hmem)
    | some w =>
      by_cases hw : (w.authToken == tok) = true
      · simp [useSpotifyPlayerEffect, hw] at hmem
      · simpa [useSpotifyPlayerEffect, hw] using
          obtainViaCache_construct_shape (some w) cache tok fresh
            (by simpa [useSpotifyPlayerEffect, hw] using hmem)
  refine ⟨?_, ?_, hshape, ?_⟩
  · intro hc
    subst hc
    match wp with
    | none =>
      simp [useSpotifyPlayerEffect, obtainViaCache_reuse]
    | some w =>
      by_cases hw : (w.authToken == tok) = true
      · simp [useSpotifyPlayerEffect, hw]
      · simp [useSpotifyPlayerEffect, hw, obtainViaCache_reuse]
  · intro hc hnw
    subst hc
    match wp with
    | none =>
      simpa [useSpotifyPlayerEffect] using obtainViaCache_reuse none tok pv fresh
    | some w =>
      have hw : ¬(w.authToken == tok) = true := by
        simpa using hnw w rfl
      simpa [useSpotifyPlayerEffect, hw] using
        obtainViaCache_reuse (some w) tok pv fresh
  · intro hmem
    rw [hshape hmem]
    match wp with
    | none => rfl
    | some w => rfl

/-- Witness for C1: a cache hit for token "t" reuses the cached
promise with no construction, and obtaining token "b" while window
player "a" is connected disconnects "a" before constructing, leaving
only the new handle connected. -/
theorem useSpotifyPlayer_single_connection_witness :
    useSpotifyPlayerEffect none
        (some ⟨"t", some (PromiseVal.newDevice "t" 0)⟩) (some "t") 1 =
      { actions := [], cache := some ⟨"t", some (PromiseVal.newDevice "t" 0)⟩,
        promiseUsed := some (PromiseVal.newDevice "t" 0) } ∧
    (useSpotifyPlayerEffect (some ⟨"a", 0⟩) none (some "b") 1).actions =
      [ObtainAction.disconnectOld, ObtainAction.constructDevice] ∧
    (connectNew
      (((useSpotifyPlayerEffect (some ⟨"a", 0⟩) none (some "b") 1).actions).foldl
        applyObtainAction ((some (⟨"a", 0⟩ : PlayerHandle)).isSome, false))).1 =
      false := by
  have h1 :=
    (useSpotifyPlayer_single_connection none
      (some ⟨"t", some (PromiseVal.newDevice "t" 0)⟩) "t"
      (PromiseVal.newDevice "t" 0) 1).2.1 rfl (fun w hw => by cases hw)
  have h2 :=
    (useSpotifyPlayer_single_connection (some ⟨"a", 0⟩) none "b"
      (PromiseVal.newDevice "b" 1) 1).2.2.1 (by decide)
  have h3 :=
    (useSpotifyPlayer_single_connection (some ⟨"a", 0⟩) none "b"
      (PromiseVal.newDevice "b" 1) 1).2.2.2 (by decide)
  exact ⟨h1, by simpa using h2, h3⟩

/-- C6: when `connect()` resolves to false, the continuation writes
INIT_ERROR, throws nothing, registers no listeners, does not assign
the window player, and leaves the `tokenAndPromise` cache untouched —
so a later run of the effect for the same credential reuses the
already-resolved promise without constructing a new device. -/
theorem connect_false_init_error (cache : Option TokenAndPromise)
    (tok : String) (pv : PromiseVal) (fresh : Nat) :
    (afterConnect cache false).statusWritten =
      some SpotifyPlayerStatus.INIT_ERROR ∧
    (afterConnect cache false).threw = false ∧
    (afterConnect cache false).listenersRegistered = [] ∧
    (afterConnect cache false).windowPlayerSet = false ∧
    (afterConnect cache false).cacheAfter = cache ∧
    (cache = some ⟨tok, some pv⟩ →
      useSpotifyPlayerEffect none cache (some tok) fresh =
        { actions := [], cache := cache, promiseUsed := some pv }) := by
  refine ⟨rfl, rfl, rfl, rfl, rfl, ?_⟩
  intro hc
  subst hc
  simpa [useSpotifyPlayerEffect] using obtainViaCache_reuse none tok pv fresh

/-- Witness for C6 at a concrete cache. -/
theorem connect_false_init_error_witness :
    (afterConnect (some ⟨"t", some (PromiseVal.newDevice "t" 0)⟩) false).statusWritten =
      some SpotifyPlayerStatus.INIT_ERROR ∧
    useSpotifyPlayerEffect none
        (some ⟨"t", some (PromiseVal.newDevice "t" 0)⟩) (some "t") 3 =
      { actions := [], cache := some ⟨"t", some (PromiseVal.newDevice "t" 0)⟩,
        promiseUsed := some (PromiseVal.newDevice "t" 0) } := by
  have h :=
    connect_false_init_error (some ⟨"t", some (PromiseVal.newDevice "t" 0)⟩)
      "t" (PromiseVal.newDevice "t" 0) 3
  exact ⟨h.1, h.2.2.2.2.2 rfl⟩

/-- Counterexample to C4: after a transition to unpaused followed by a
disconnect, the claim's predicate says the timer must be inactive, but
no code path clears `tickIntervalId` on disconnect, so the interval is
still running. -/
theorem tickTimer_disconnect_counterexample :
    (runTimerEvents
        [PlayerTimerEvent.stateChanged (some ⟨false, 1000, "t", []⟩),
         PlayerTimerEvent.disconnect]).tickIntervalId.isSome = true ∧
    claimTimerActive
        [PlayerTimerEvent.stateChanged (some ⟨false, 1000, "t", []⟩),
         PlayerTimerEvent.disconnect] = false := by
  exact ⟨by decide, by decide⟩

/-- The conjunction of the timer invariant (the process-wide set of
running intervals is exactly the registered `tickIntervalId`) with the
correspondence between the timer flag and `codeTimerActive`, pushed
through a fold over any event sequence. -/
theorem runTimer_fold_inv (events : List PlayerTimerEvent) :
    ∀ s : TimerState,
      s.activeTimers = s.tickIntervalId.elim [] (fun i => [i]) →
      (events.foldl applyPlayerEvent s).activeTimers =
        (events.foldl applyPlayerEvent s).tickIntervalId.elim []
          (fun i => [i]) ∧
      (events.foldl applyPlayerEvent s).tickIntervalId.isSome =
        codeTimerActive s.tickIntervalId.isSome events := by
  induction events with
  | nil => intro s hs; exact ⟨hs, rfl⟩
  | cons e rest ih =>
    intro s hs
    have hstep :
        (applyPlayerEvent s e).activeTimers =
          (applyPlayerEvent s e).tickIntervalId.elim [] (fun i => [i]) ∧
        (applyPlayerEvent s e).tickIntervalId.isSome =
          (match e with
           | PlayerTimerEvent.stateChanged (some st) => !st.paused
           | PlayerTimerEvent.stateChanged none => s.tickIntervalId.isSome
           | PlayerTimerEvent.disconnect => s.tickIntervalId.isSome) := by
      cases e with
      | disconnect => exact ⟨hs, rfl⟩
      | stateChanged st =>
        cases st with
        | none => exact ⟨hs, rfl⟩
        | some stv =>
          cases hp : stv.paused with
          | false =>
            cases hid : s.tickIntervalId with
            | none =>
              have hempty : s.activeTimers = [] := by simp [hs, hid]
              refine ⟨?_, ?_⟩ <;>
                simp [applyPlayerEvent, mainCallback, hp, hid, setIntervalOp,
                  hempty]
            | some i =>
              refine ⟨?_, ?_⟩ <;>
                simp [applyPlayerEvent, mainCallback, hp, hid, hs]
          | true =>
            cases hid : s.tickIntervalId with
            | none =>
              refine ⟨?_, ?_⟩ <;>
                simp [applyPlayerEvent, mainCallback, hp, hid, hs]
            | some i =>
              have hone : s.activeTimers = [i] := by simp [hs, hid]
              refine ⟨?_, ?_⟩ <;>
                simp [applyPlayerEvent, mainCallback, hp, hid, clearIntervalOp,
                  hone]
    have hrest := ih (applyPlayerEvent s e) hstep.1
    refine ⟨hrest.1, ?_⟩
    rw [List.foldl_cons] at *
    rw [hrest.2, hstep.2]
    rfl

/-- C4 as amended: the tick interval timer is active iff the most
recent state-change event with a non-null payload reported unpaused —
a disconnect (or a null payload) leaves the timer as it was — and at
every point at most one interval timer is running process-wide. -/
theorem tickTimer_active_iff_amended (events : List PlayerTimerEvent) :
    (runTimerEvents events).tickIntervalId.isSome =
      codeTimerActive false events ∧
    (runTimerEvents events).activeTimers.length ≤ 1 := by
  have h := runTimer_fold_inv events timerStart (by rfl)
  refine ⟨h.2, ?_⟩
  rw [runTimerEvents] at *
  rw [h.1]
  cases (events.foldl applyPlayerEvent timerStart).tickIntervalId <;> simp

end ChoreoRemix
